import Mathlib

/-!
Shallow embedding of the go-funcards/logger repository (src/logger.go) and
proofs of properties of its configuration-to-logger mapping.

The repository is a thin factory over the zap logging backend and the
lumberjack rotating-file writer.  Pure Go functions become Lean functions;
the pointer-receiver mutations of `BuildLogger` and `InitDefaults` become
explicit state passing (the updated `Config` is returned alongside the
result).  External collaborators (zap's level parser, `os.TempDir`, zap's
`Config.Build`) are modelled from the spec's description of their contracts,
each marked `Modelled from the spec:` in its doc comment.
-/

namespace GoLogger

/-- zapcore.DebugLevel: the int8 value -1. -/
def DebugLevel : Int := -1

/-- zapcore.InfoLevel: the int8 value 0. -/
def InfoLevel : Int := 0

/-- zapcore.WarnLevel: the int8 value 1. -/
def WarnLevel : Int := 1

/-- zapcore.ErrorLevel: the int8 value 2. -/
def ErrorLevel : Int := 2

/-- zapcore.DPanicLevel: the int8 value 3. -/
def DPanicLevel : Int := 3

/-- zapcore.PanicLevel: the int8 value 4. -/
def PanicLevel : Int := 4

/-- zapcore.FatalLevel: the int8 value 5. -/
def FatalLevel : Int := 5

/-- zapcore.OmitKey: the empty string, used to drop a field from records. -/
def OmitKey : String := ""

/-- zapcore.DefaultLineEnding. -/
def DefaultLineEnding : String := "\n"

/-- Modelled from the spec: the backend's `Level.CapitalString`, the
all-capitals name of a known severity (unknown values render as
`LEVEL(n)`).  The repository excludes the level enumeration itself but its
colorizer calls this accessor. -/
def capitalString (l : Int) : String :=
  if l = DebugLevel then "DEBUG"
  else if l = InfoLevel then "INFO"
  else if l = WarnLevel then "WARN"
  else if l = ErrorLevel then "ERROR"
  else if l = DPanicLevel then "DPANIC"
  else if l = PanicLevel then "PANIC"
  else if l = FatalLevel then "FATAL"
  else "LEVEL(" ++ toString l ++ ")"

/-- The fixed ANSI colors used by the fatih/color helpers that the two
formatting callbacks call.  The spec explicitly excludes the
escape-code rendering, so a color is an abstract tag. -/
inductive Color
  | hiWhite
  | hiCyan
  | hiYellow
  | hiRed
  | hiMagenta
  | hiGreen
  deriving DecidableEq, Repr

/-- A string wrapped in a fixed color, as appended to the encoder's
output buffer by `color.HiXxxString(s)`. -/
structure ColoredString where
  color : Color
  text : String
  deriving DecidableEq, Repr

/-- ColoredLevelEncoder (src/logger.go lines 194-207): the switch over the
severity.  The result is the list of strings appended to the primitive
array encoder's buffer; the switch has no default branch, so an unknown
severity appends nothing. -/
def ColoredLevelEncoder (level : Int) : List ColoredString :=
  if level = DebugLevel then [⟨Color.hiWhite, capitalString level⟩]
  else if level = InfoLevel then [⟨Color.hiCyan, capitalString level⟩]
  else if level = WarnLevel then [⟨Color.hiYellow, capitalString level⟩]
  else if level = ErrorLevel ∨ level = DPanicLevel then
    [⟨Color.hiRed, capitalString level⟩]
  else if level = PanicLevel ∨ level = FatalLevel then
    [⟨Color.hiMagenta, capitalString level⟩]
  else []

/-- ColoredNameEncoder (src/logger.go lines 210-216): pad the name with
trailing spaces to 12 characters when shorter, then append it wrapped in
bright green. -/
def ColoredNameEncoder (s : String) : List ColoredString :=
  let s := if s.length < 12 then s ++ String.mk (List.replicate (12 - s.length) ' ') else s
  [⟨Color.hiGreen, s⟩]

/-- FileLoggerConfig (src/logger.go lines 13-38): configuration for the
rotating file writer. -/
structure FileLoggerConfig where
  LogOutput : String
  MaxSize : Int
  MaxAge : Int
  MaxBackups : Int
  Compress : Bool
  deriving DecidableEq, Repr

/-- Modelled from the spec: Go's `os.TempDir`, an external collaborator
giving the per-process temp-file directory — the value of the `TMPDIR`
environment variable, or `/tmp` when that is empty.  The environment value
is passed in explicitly. -/
def osTempDir (tmpdirEnv : String) : String :=
  if tmpdirEnv = "" then "/tmp" else tmpdirEnv

/-- FileLoggerConfig.InitDefaults (src/logger.go lines 40-58): fill every
zero-valued field with its default.  The Go method mutates through the
pointer receiver and returns the receiver; here the updated value is
returned.  `tmpdirEnv` is the environment input to the `os.TempDir` call. -/
def FileLoggerConfig.InitDefaults (tmpdirEnv : String) (fl : FileLoggerConfig) :
    FileLoggerConfig :=
  { LogOutput := if fl.LogOutput = "" then osTempDir tmpdirEnv else fl.LogOutput
    MaxSize := if fl.MaxSize = 0 then 100 else fl.MaxSize
    MaxAge := if fl.MaxAge = 0 then 24 else fl.MaxAge
    MaxBackups := if fl.MaxBackups = 0 then 10 else fl.MaxBackups
    Compress := fl.Compress }

/-- Config (src/logger.go lines 60-86): the declarative logger
configuration. -/
structure Config where
  Level : String
  LineEnding : String
  Encoding : String
  Output : List String
  ErrorOutput : List String
  FileLogger : Option FileLoggerConfig
  deriving DecidableEq, Repr

/-- Which zapcore level-encoder callback an encoder config carries. -/
inductive LevelEncoderT
  | colored
  | lowercase
  deriving DecidableEq, Repr

/-- Which zapcore name-encoder callback an encoder config carries
(the production template leaves the field unset, modelled as `none`). -/
inductive NameEncoderT
  | colored
  deriving DecidableEq, Repr

/-- Which zapcore time-encoder callback an encoder config carries. -/
inductive TimeEncoderT
  | iso8601
  | epoch
  deriving DecidableEq, Repr

/-- Which zapcore duration-encoder callback an encoder config carries. -/
inductive DurationEncoderT
  | stringDur
  | seconds
  deriving DecidableEq, Repr

/-- Which zapcore caller-encoder callback an encoder config carries. -/
inductive CallerEncoderT
  | short
  deriving DecidableEq, Repr

/-- zapcore.EncoderConfig as populated by BuildLogger: field keys, line
ending and the chosen encoder callbacks (function-pointer fields become
tags). -/
structure EncoderConfig where
  TimeKey : String
  LevelKey : String
  NameKey : String
  CallerKey : String
  FunctionKey : String
  MessageKey : String
  StacktraceKey : String
  LineEnding : String
  EncodeLevel : LevelEncoderT
  EncodeName : Option NameEncoderT
  EncodeTime : TimeEncoderT
  EncodeDuration : DurationEncoderT
  EncodeCaller : CallerEncoderT
  deriving DecidableEq, Repr

/-- zap.Config as populated by BuildLogger (the fields the source touches). -/
structure ZapConfig where
  Level : Int
  Development : Bool
  Encoding : String
  EncCfg : EncoderConfig
  OutputPaths : List String
  ErrorOutputPaths : List String
  deriving DecidableEq, Repr

/-- Modelled from the spec: one matching pass of the external backend's
level parser, accepting a known severity name in its lower- or upper-case
spelling (empty meaning info) and failing on anything else. -/
def unmarshalText : String → Option Int
  | "debug" | "DEBUG" => some DebugLevel
  | "info" | "INFO" | "" => some InfoLevel
  | "warn" | "WARN" => some WarnLevel
  | "error" | "ERROR" => some ErrorLevel
  | "dpanic" | "DPANIC" => some DPanicLevel
  | "panic" | "PANIC" => some PanicLevel
  | "fatal" | "FATAL" => some FatalLevel
  | _ => none

/-- Modelled from the spec: the external backend's level parser
(`zap.AtomicLevel.UnmarshalText`), case-insensitive — it matches the text
as given and, when that fails, retries with the text lowercased, so
mixed-case spellings such as "Warn" also parse. -/
def unmarshalLevel (text : String) : Option Int :=
  match unmarshalText text with
  | some l => some l
  | none => unmarshalText (String.mk (text.data.map Char.toLower))

/-- The lumberjack.Logger value built in the file-logger branch. -/
structure LumberjackLogger where
  Filename : String
  MaxSize : Int
  MaxAge : Int
  MaxBackups : Int
  Compress : Bool
  deriving DecidableEq, Repr

/-- The write destination a zapcore.Core is bound to: either the
synchronized rotating file writer (`zapcore.AddSync(&lumberjack.Logger{..})`)
or a sink opened from a list of output paths (what `zCfg.Build()` would
use). -/
inductive WriteSyncer
  | lumberjack (lj : LumberjackLogger)
  | paths (ps : List String)
  deriving DecidableEq, Repr

/-- The encoder a zapcore.Core is built against; the file-logger branch
always uses `zapcore.NewJSONEncoder(zCfg.EncoderConfig)`. -/
inductive CoreEncoder
  | json (cfg : EncoderConfig)
  deriving DecidableEq, Repr

/-- A zapcore.Core: encoder, write destination and minimum enabled level. -/
structure Core where
  enc : CoreEncoder
  ws : WriteSyncer
  enab : Int
  deriving DecidableEq, Repr

/-- The logger BuildLogger returns: either `zap.New(core)` over an explicit
core (file-logger branch) or the backend-built logger from `zCfg.Build()`
carrying the resolved configuration. -/
inductive Logger
  | fromCore (core : Core)
  | backend (zCfg : ZapConfig)
  deriving DecidableEq, Repr

/-- The effective minimum level of a returned logger: the core's enabled
level, or the level of the resolved configuration the backend built from. -/
def Logger.minLevel : Logger → Int
  | .fromCore core => core.enab
  | .backend zCfg => zCfg.Level

/-- Modelled from the spec: the external logging backend's `zCfg.Build()` —
it accepts a resolved configuration and returns a logger instance or a
construction error (e.g. an invalid sink URL).  Which configurations it
rejects depends on the environment, abstracted as the predicate `ok`. -/
def zapBuild (ok : ZapConfig → Bool) (zCfg : ZapConfig) : Except String Logger :=
  if ok zCfg then .ok (.backend zCfg) else .error "backend rejected configuration"

/-- The development-mode zap.Config template (src/logger.go lines 96-117):
console encoding, debug level, colored level and name encoders. -/
def debugTemplate (lineEnding : String) : ZapConfig :=
  { Level := DebugLevel
    Development := true
    Encoding := "console"
    EncCfg :=
      { TimeKey := "ts"
        LevelKey := "level"
        NameKey := "logger"
        CallerKey := OmitKey
        FunctionKey := OmitKey
        MessageKey := "msg"
        StacktraceKey := OmitKey
        LineEnding := lineEnding
        EncodeLevel := .colored
        EncodeName := some .colored
        EncodeTime := .iso8601
        EncodeDuration := .stringDur
        EncodeCaller := .short }
    OutputPaths := ["stderr"]
    ErrorOutputPaths := ["stderr"] }

/-- The production-mode zap.Config template (src/logger.go lines 119-139):
json encoding, info level, lowercase level encoder, no name encoder. -/
def prodTemplate (lineEnding : String) : ZapConfig :=
  { Level := InfoLevel
    Development := false
    Encoding := "json"
    EncCfg :=
      { TimeKey := "ts"
        LevelKey := "level"
        NameKey := "logger"
        CallerKey := OmitKey
        FunctionKey := OmitKey
        MessageKey := "msg"
        StacktraceKey := OmitKey
        LineEnding := lineEnding
        EncodeLevel := .lowercase
        EncodeName := none
        EncodeTime := .epoch
        EncodeDuration := .seconds
        EncodeCaller := .short }
    OutputPaths := ["stderr"]
    ErrorOutputPaths := ["stderr"] }

/-- src/logger.go lines 148-151: `level := zap.NewAtomicLevel();
if err := level.UnmarshalText([]byte(cfg.Level)); err == nil { zCfg.Level = level }` —
on parse success override the template's level, on failure keep it. -/
def applyLevel (cfg : Config) (z : ZapConfig) : ZapConfig :=
  match unmarshalLevel cfg.Level with
  | some l => { z with Level := l }
  | none => z

/-- src/logger.go lines 153-155: override the encoding when configured. -/
def applyEncoding (cfg : Config) (z : ZapConfig) : ZapConfig :=
  if cfg.Encoding ≠ "" then { z with Encoding := cfg.Encoding } else z

/-- src/logger.go lines 157-159: override the output paths when configured. -/
def applyOutputs (cfg : Config) (z : ZapConfig) : ZapConfig :=
  if cfg.Output ≠ [] then { z with OutputPaths := cfg.Output } else z

/-- src/logger.go lines 161-163: override the error-output paths when
configured. -/
def applyErrorOutputs (cfg : Config) (z : ZapConfig) : ZapConfig :=
  if cfg.ErrorOutput ≠ [] then { z with ErrorOutputPaths := cfg.ErrorOutput } else z

/-- Config.BuildLogger (src/logger.go lines 89-191).  The Go method mutates
the receiver through its pointer; the updated `Config` is returned in the
first component.  `ok` abstracts which resolved configurations the external
backend's `Build` accepts; `tmpdirEnv` is the environment input to the
`os.TempDir` call made by `InitDefaults`. -/
def Config.BuildLogger (ok : ZapConfig → Bool) (tmpdirEnv : String)
    (cfg : Config) (debug : Bool) : Config × Except String Logger :=
  let cfg := if cfg.LineEnding = "" then { cfg with LineEnding := DefaultLineEnding } else cfg
  let zCfg := if debug then debugTemplate cfg.LineEnding else prodTemplate cfg.LineEnding
  let cfg :=
    if debug then { cfg with Level := "DEBUG" }
    else if cfg.Level = "" then { cfg with Level := "INFO" }
    else cfg
  let zCfg := applyErrorOutputs cfg (applyOutputs cfg (applyEncoding cfg (applyLevel cfg zCfg)))
  match cfg.FileLogger with
  | some fl =>
    let fl := fl.InitDefaults tmpdirEnv
    let cfg := { cfg with FileLogger := some fl }
    let w := WriteSyncer.lumberjack
      { Filename := fl.LogOutput
        MaxSize := fl.MaxSize
        MaxAge := fl.MaxAge
        MaxBackups := fl.MaxBackups
        Compress := fl.Compress }
    let core : Core := { enc := .json zCfg.EncCfg, ws := w, enab := zCfg.Level }
    (cfg, .ok (.fromCore core))
  | none => (cfg, zapBuild ok zCfg)

/-! ## Helper lemmas shared by the claim theorems -/

/-- The level-override step resolves the configuration's level: the parsed
value on success, the template's level on failure. -/
lemma applyLevel_Level (cfg : Config) (z : ZapConfig) :
    (applyLevel cfg z).Level =
      match unmarshalLevel cfg.Level with
      | some l => l
      | none => z.Level := by
  unfold applyLevel
  cases unmarshalLevel cfg.Level <;> rfl

/-- The encoding/output/error-output overrides leave the resolved level
untouched. -/
lemma overrides_Level (cfg : Config) (z : ZapConfig) :
    (applyErrorOutputs cfg (applyOutputs cfg (applyEncoding cfg z))).Level = z.Level := by
  unfold applyErrorOutputs applyOutputs applyEncoding
  split <;> split <;> split <;> rfl

/-- Any logger BuildLogger returns carries the resolved minimum level:
the parse of the (possibly forced) level string when it succeeds, and the
mode template's default when it fails. -/
lemma buildLogger_ok_minLevel (ok : ZapConfig → Bool) (e : String) (cfg : Config)
    (debug : Bool) (L : Logger)
    (h : (Config.BuildLogger ok e cfg debug).2 = .ok L) :
    L.minLevel =
      match unmarshalLevel
          (if debug then "DEBUG" else if cfg.Level = "" then "INFO" else cfg.Level) with
      | some l => l
      | none => if debug then DebugLevel else InfoLevel := by
  obtain ⟨lvl, le, enc, out, eout, fl⟩ := cfg
  cases debug <;>
    by_cases hlv : lvl = "" <;>
    by_cases hle : le = "" <;>
    simp only [Config.BuildLogger, hlv, hle, ite_true, ite_false, Bool.false_eq_true,
      if_true, if_false] at h <;>
    cases fl <;>
    simp only [zapBuild] at h
  all_goals try split at h
  all_goals first
    | exact Except.noConfusion h
    | (simp only [Except.ok.injEq] at h
       subst h
       simp [Logger.minLevel, overrides_Level, applyLevel_Level, hlv, hle, debugTemplate,
         prodTemplate])

/-- When the external backend accepts every resolved configuration,
BuildLogger returns a logger, never an error. -/
lemma buildLogger_ok_of_accept (ok : ZapConfig → Bool) (e : String) (cfg : Config)
    (debug : Bool) (hok : ∀ z, ok z = true) :
    ∃ L, (Config.BuildLogger ok e cfg debug).2 = .ok L := by
  simp only [Config.BuildLogger, zapBuild, hok, if_true, ite_true]
  split <;> exact ⟨_, rfl⟩

/-- With a file-logger configuration present, BuildLogger returns
`zap.New` of a core whose write syncer is the lumberjack writer built from
the defaulted file-logger settings. -/
lemma buildLogger_file_branch (ok : ZapConfig → Bool) (e : String) (cfg : Config)
    (fl : FileLoggerConfig) (debug : Bool) (h : cfg.FileLogger = some fl) :
    ∃ core : Core, (Config.BuildLogger ok e cfg debug).2 = .ok (.fromCore core) ∧
      core.ws = .lumberjack
        { Filename := (fl.InitDefaults e).LogOutput
          MaxSize := (fl.InitDefaults e).MaxSize
          MaxAge := (fl.InitDefaults e).MaxAge
          MaxBackups := (fl.InitDefaults e).MaxBackups
          Compress := (fl.InitDefaults e).Compress } := by
  obtain ⟨lvl, le, enc, out, eout, flq⟩ := cfg
  simp only [Config] at h
  subst h
  cases debug <;> by_cases hlv : lvl = "" <;> by_cases hle : le = "" <;>
    simp [Config.BuildLogger, hlv, hle]

/-! ## Claim theorems -/

/-- C1: for every configuration, calling BuildLogger with debug=true
produces a logger whose effective minimum level is DEBUG, regardless of the
configuration's Level field value. -/
theorem buildLogger_debug_forces_debug_level (ok : ZapConfig → Bool) (e : String)
    (cfg : Config) (L : Logger)
    (h : (Config.BuildLogger ok e cfg true).2 = .ok L) : L.minLevel = DebugLevel := by
  have h2 := buildLogger_ok_minLevel ok e cfg true L h
  exact h2.trans rfl

/-- Witness for C1 at a concrete configuration whose Level field is "warn". -/
theorem buildLogger_debug_forces_debug_level_check :
    Logger.minLevel (Logger.backend (debugTemplate "\n")) = DebugLevel :=
  buildLogger_debug_forces_debug_level (fun _ => true) ""
    ⟨"warn", "", "", [], [], none⟩ (.backend (debugTemplate "\n")) (by rfl)

/-- C2: for every configuration with debug=false and a non-empty Level
string that does not parse as a known severity, any logger BuildLogger
returns has the template default minimum level INFO, and the parse failure
does not cause an error: when the backend accepts every configuration,
BuildLogger succeeds. -/
theorem buildLogger_unparseable_level_falls_back_to_info (ok : ZapConfig → Bool)
    (e : String) (cfg : Config)
    (hne : cfg.Level ≠ "") (hbad : unmarshalLevel cfg.Level = none) :
    (∀ L, (Config.BuildLogger ok e cfg false).2 = .ok L → L.minLevel = InfoLevel) ∧
    ((∀ z, ok z = true) → ∃ L, (Config.BuildLogger ok e cfg false).2 = .ok L) := by
  constructor
  · intro L h
    have h2 := buildLogger_ok_minLevel ok e cfg false L h
    simp [hne, hbad] at h2
    exact h2
  · exact fun hok => buildLogger_ok_of_accept ok e cfg false hok

/-- Witness for C2 at a concrete configuration with the unparseable level
string "verbose". -/
theorem buildLogger_unparseable_level_falls_back_to_info_check :
    Logger.minLevel (Logger.backend (prodTemplate "\n")) = InfoLevel :=
  (buildLogger_unparseable_level_falls_back_to_info (fun _ => true) ""
      ⟨"verbose", "", "", [], [], none⟩ (by decide) (by decide)).1
    (Logger.backend (prodTemplate "\n")) (by rfl)

/-- C3: for every configuration whose FileLogger field is non-nil, the
logger returned by BuildLogger writes exclusively through the rotating file
writer built from the defaulted FileLogger settings; its write syncer is
never a paths-based sink, so the configured Output and ErrorOutput lists
are not write destinations in this path. -/
theorem buildLogger_file_logger_routes_to_rotating_writer (ok : ZapConfig → Bool)
    (e : String) (cfg : Config) (fl : FileLoggerConfig) (debug : Bool)
    (h : cfg.FileLogger = some fl) :
    ∃ core : Core, (Config.BuildLogger ok e cfg debug).2 = .ok (.fromCore core) ∧
      core.ws = .lumberjack
        { Filename := (fl.InitDefaults e).LogOutput
          MaxSize := (fl.InitDefaults e).MaxSize
          MaxAge := (fl.InitDefaults e).MaxAge
          MaxBackups := (fl.InitDefaults e).MaxBackups
          Compress := (fl.InitDefaults e).Compress } ∧
      ∀ ps : List String, core.ws ≠ .paths ps := by
  obtain ⟨core, h1, h2⟩ := buildLogger_file_branch ok e cfg fl debug h
  refine ⟨core, h1, h2, fun ps hc => ?_⟩
  rw [h2] at hc
  exact WriteSyncer.noConfusion hc

/-- Witness for C3 at a concrete configuration with a configured output
list and a zero-valued file-logger configuration. -/
theorem buildLogger_file_logger_routes_to_rotating_writer_check :
    ∃ core : Core,
      (Config.BuildLogger (fun _ => true) ""
          ⟨"", "", "", ["stdout"], [], some ⟨"", 0, 0, 0, false⟩⟩ false).2 =
        .ok (.fromCore core) ∧
      core.ws = .lumberjack
        { Filename := (FileLoggerConfig.InitDefaults "" ⟨"", 0, 0, 0, false⟩).LogOutput
          MaxSize := (FileLoggerConfig.InitDefaults "" ⟨"", 0, 0, 0, false⟩).MaxSize
          MaxAge := (FileLoggerConfig.InitDefaults "" ⟨"", 0, 0, 0, false⟩).MaxAge
          MaxBackups := (FileLoggerConfig.InitDefaults "" ⟨"", 0, 0, 0, false⟩).MaxBackups
          Compress := (FileLoggerConfig.InitDefaults "" ⟨"", 0, 0, 0, false⟩).Compress } ∧
      ∀ ps : List String, core.ws ≠ .paths ps :=
  buildLogger_file_logger_routes_to_rotating_writer (fun _ => true) ""
    ⟨"", "", "", ["stdout"], [], some ⟨"", 0, 0, 0, false⟩⟩ ⟨"", 0, 0, 0, false⟩ false rfl

/-- C4: InitDefaults fills each zero-valued numeric field with its default
(MaxSize 100, MaxAge 24, MaxBackups 10) and an empty path with the
non-empty temp-dir default, leaving every non-zero field (and a non-empty
path) unchanged. -/
theorem initDefaults_defaults_zero_fields (e : String) (fl : FileLoggerConfig) :
    (fl.InitDefaults e).MaxSize = (if fl.MaxSize = 0 then 100 else fl.MaxSize) ∧
    (fl.InitDefaults e).MaxAge = (if fl.MaxAge = 0 then 24 else fl.MaxAge) ∧
    (fl.InitDefaults e).MaxBackups = (if fl.MaxBackups = 0 then 10 else fl.MaxBackups) ∧
    (fl.InitDefaults e).LogOutput = (if fl.LogOutput = "" then osTempDir e else fl.LogOutput) ∧
    (fl.InitDefaults e).LogOutput ≠ "" ∧
    (fl.InitDefaults e).Compress = fl.Compress := by
  refine ⟨rfl, rfl, rfl, rfl, ?_, rfl⟩
  simp only [FileLoggerConfig.InitDefaults, osTempDir]
  split_ifs with h1 h2 <;> simp_all

/-- Witness for C4 at the all-zero file-logger configuration. -/
theorem initDefaults_defaults_zero_fields_check :
    (FileLoggerConfig.InitDefaults "" ⟨"", 0, 0, 0, false⟩).MaxSize = 100 ∧
    (FileLoggerConfig.InitDefaults "" ⟨"", 0, 0, 0, false⟩).MaxAge = 24 ∧
    (FileLoggerConfig.InitDefaults "" ⟨"", 0, 0, 0, false⟩).MaxBackups = 10 ∧
    (FileLoggerConfig.InitDefaults "" ⟨"", 0, 0, 0, false⟩).LogOutput ≠ "" := by
  have h := initDefaults_defaults_zero_fields "" ⟨"", 0, 0, 0, false⟩
  exact ⟨h.1, h.2.1, h.2.2.1, h.2.2.2.2.1⟩

/-- C5: the level colorizer maps each severity to its capitalized name
wrapped in the fixed color of the table: debug to bright white, info to
bright cyan, warn to bright yellow, error and dpanic to bright red, and
panic and fatal to bright magenta. -/
theorem coloredLevelEncoder_color_table :
    ColoredLevelEncoder DebugLevel = [⟨Color.hiWhite, "DEBUG"⟩] ∧
    ColoredLevelEncoder InfoLevel = [⟨Color.hiCyan, "INFO"⟩] ∧
    ColoredLevelEncoder WarnLevel = [⟨Color.hiYellow, "WARN"⟩] ∧
    ColoredLevelEncoder ErrorLevel = [⟨Color.hiRed, "ERROR"⟩] ∧
    ColoredLevelEncoder DPanicLevel = [⟨Color.hiRed, "DPANIC"⟩] ∧
    ColoredLevelEncoder PanicLevel = [⟨Color.hiMagenta, "PANIC"⟩] ∧
    ColoredLevelEncoder FatalLevel = [⟨Color.hiMagenta, "FATAL"⟩] := by
  decide

/-- C6: for every configuration with debug=false and an empty Level field,
any logger BuildLogger returns has minimum level INFO. -/
theorem buildLogger_empty_level_defaults_to_info (ok : ZapConfig → Bool) (e : String)
    (cfg : Config) (L : Logger) (hlv : cfg.Level = "")
    (h : (Config.BuildLogger ok e cfg false).2 = .ok L) : L.minLevel = InfoLevel := by
  have h2 := buildLogger_ok_minLevel ok e cfg false L h
  rw [hlv] at h2
  exact h2.trans rfl

/-- Witness for C6 at the all-empty configuration. -/
theorem buildLogger_empty_level_defaults_to_info_check :
    Logger.minLevel (Logger.backend (prodTemplate "\n")) = InfoLevel :=
  buildLogger_empty_level_defaults_to_info (fun _ => true) ""
    ⟨"", "", "", [], [], none⟩ (.backend (prodTemplate "\n")) rfl (by rfl)

/-- C7: the name colorizer pads names shorter than 12 characters with
trailing spaces to exactly 12 characters before the color wrapper, and
leaves names of 12 or more characters unpadded. -/
theorem coloredNameEncoder_pads_to_twelve (s : String) :
    (s.length < 12 →
      ColoredNameEncoder s =
        [⟨Color.hiGreen, s ++ String.mk (List.replicate (12 - s.length) ' ')⟩] ∧
      (s ++ String.mk (List.replicate (12 - s.length) ' ')).length = 12) ∧
    (12 ≤ s.length → ColoredNameEncoder s = [⟨Color.hiGreen, s⟩]) := by
  constructor
  · intro h
    refine ⟨by simp [ColoredNameEncoder, h], ?_⟩
    obtain ⟨a⟩ := s
    have h2 : a.length < 12 := h
    show (a ++ List.replicate (12 - a.length) ' ').length = 12
    rw [List.length_append, List.length_replicate]
    omega
  · intro h
    have hnot : ¬ s.length < 12 := by omega
    simp [ColoredNameEncoder, hnot]

/-- Witness for C7: a 5-character name is padded to a 12-character
pre-color string; a 14-character name is unchanged. -/
theorem coloredNameEncoder_pads_to_twelve_check :
    (ColoredNameEncoder "hello" =
        [⟨Color.hiGreen, "hello" ++ String.mk (List.replicate (12 - "hello".length) ' ')⟩] ∧
      ("hello" ++ String.mk (List.replicate (12 - "hello".length) ' ')).length = 12) ∧
    ColoredNameEncoder "abcdefghijklmn" = [⟨Color.hiGreen, "abcdefghijklmn"⟩] :=
  ⟨(coloredNameEncoder_pads_to_twelve "hello").1 (by decide),
    (coloredNameEncoder_pads_to_twelve "abcdefghijklmn").2 (by decide)⟩

/-- C8: for every configuration whose FileLogger field is non-nil,
BuildLogger returns a nil error: the file-logger branch succeeds for every
backend rejection predicate, encoding and sink lists. -/
theorem buildLogger_file_logger_never_errors (ok : ZapConfig → Bool) (e : String)
    (cfg : Config) (fl : FileLoggerConfig) (debug : Bool)
    (h : cfg.FileLogger = some fl) :
    ∃ L : Logger, (Config.BuildLogger ok e cfg debug).2 = .ok L := by
  obtain ⟨core, h1, _⟩ := buildLogger_file_branch ok e cfg fl debug h
  exact ⟨.fromCore core, h1⟩

/-- Witness for C8 at a configuration with a bogus encoding and a backend
that rejects everything. -/
theorem buildLogger_file_logger_never_errors_check :
    ∃ L : Logger,
      (Config.BuildLogger (fun _ => false) ""
          ⟨"", "", "bogus", [], [], some ⟨"", 0, 0, 0, false⟩⟩ false).2 = .ok L :=
  buildLogger_file_logger_never_errors (fun _ => false) ""
    ⟨"", "", "bogus", [], [], some ⟨"", 0, 0, 0, false⟩⟩ ⟨"", 0, 0, 0, false⟩ false rfl

/-- C9: BuildLogger updates the caller-supplied Config: afterwards
LineEnding holds the resolved default if it was empty, Level holds "DEBUG"
when debug=true and "INFO" when it was empty with debug=false, and a
non-nil FileLogger has been replaced by its defaulted value. -/
theorem buildLogger_mutates_receiver_config (ok : ZapConfig → Bool) (e : String)
    (cfg : Config) (debug : Bool) :
    ((Config.BuildLogger ok e cfg debug).1.LineEnding =
      if cfg.LineEnding = "" then DefaultLineEnding else cfg.LineEnding) ∧
    (debug = true → (Config.BuildLogger ok e cfg debug).1.Level = "DEBUG") ∧
    (debug = false → cfg.Level = "" → (Config.BuildLogger ok e cfg debug).1.Level = "INFO") ∧
    (∀ fl, cfg.FileLogger = some fl →
      (Config.BuildLogger ok e cfg debug).1.FileLogger = some (fl.InitDefaults e)) := by
  obtain ⟨lvl, le, enc, out, eout, flq⟩ := cfg
  cases debug <;> by_cases hlv : lvl = "" <;> by_cases hle : le = "" <;>
    cases flq <;>
    simp [Config.BuildLogger, hlv, hle]

/-- Witness for C9 at a concrete all-empty configuration with a zero-valued
file-logger configuration, debug=false. -/
theorem buildLogger_mutates_receiver_config_check :
    (Config.BuildLogger (fun _ => true) ""
        ⟨"", "", "", [], [], some ⟨"", 0, 0, 0, false⟩⟩ false).1.LineEnding =
      DefaultLineEnding ∧
    (Config.BuildLogger (fun _ => true) ""
        ⟨"", "", "", [], [], some ⟨"", 0, 0, 0, false⟩⟩ false).1.Level = "INFO" ∧
    (Config.BuildLogger (fun _ => true) ""
        ⟨"", "", "", [], [], some ⟨"", 0, 0, 0, false⟩⟩ false).1.FileLogger =
      some (FileLoggerConfig.InitDefaults "" ⟨"", 0, 0, 0, false⟩) := by
  have h := buildLogger_mutates_receiver_config (fun _ => true) ""
    ⟨"", "", "", [], [], some ⟨"", 0, 0, 0, false⟩⟩ false
  exact ⟨h.1, h.2.2.1 rfl rfl, h.2.2.2 _ rfl⟩

/-- C10: for a severity value outside the known set, the level colorizer
appends nothing to the encoder's output: the switch has no default branch. -/
theorem coloredLevelEncoder_unknown_level_appends_nothing (l : Int)
    (h1 : l ≠ DebugLevel) (h2 : l ≠ InfoLevel) (h3 : l ≠ WarnLevel)
    (h4 : l ≠ ErrorLevel) (h5 : l ≠ DPanicLevel) (h6 : l ≠ PanicLevel)
    (h7 : l ≠ FatalLevel) : ColoredLevelEncoder l = [] := by
  simp [ColoredLevelEncoder, h1, h2, h3, h4, h5, h6, h7]

/-- Witness for C10 at the out-of-range severity value 6. -/
theorem coloredLevelEncoder_unknown_level_appends_nothing_check :
    ColoredLevelEncoder 6 = [] :=
  coloredLevelEncoder_unknown_level_appends_nothing 6 (by decide) (by decide) (by decide)
    (by decide) (by decide) (by decide) (by decide)

end GoLogger
